import Mathlib

/-!
Shallow embedding of `passbook/audit/models.py`.

The file models the two record types of the audit app and their operations:

* `AuditEntry` — an individual audit log entry.  `AuditEntry.create` builds a
  row from an action string, the request's user and client IP, and extra
  keyword arguments serialized to JSON; `AuditEntry.save` refuses to write an
  instance that is not being added (Django's `self._state.adding` is `true`
  exactly while the row has not been inserted yet).  The lazy `context`
  property deserializes `_context` and caches the result, guarded by Python
  truthiness (`if not self._context_cache`).
* `LoginAttempt` — a per-(target_uid, request_ip) counter with a trailing
  10-minute window.  `LoginAttempt.attempt` truncates the target to 254
  characters, filters for records whose `last_updated` lies strictly inside
  the window, orders them by `created` ascending, and either increments the
  first match or creates a fresh row.

The Django ORM store is modelled as an explicit list of rows plus a fresh-id
counter; `django.utils.timezone.now()` is an explicit integer parameter
measured in minutes, so `timedelta(minutes=10)` is the integer `10`.
JSON values (`json.loads` results) are modelled by the inductive `PyJson`,
and a serialized payload is represented by its decoded value (`json.dumps`
and `json.loads` round-trip).
-/

/-- Python/JSON values, as produced by `json.loads`. -/
inductive PyJson where
  | null : PyJson
  | bool : Bool → PyJson
  | int : Int → PyJson
  | str : String → PyJson
  | list : List PyJson → PyJson
  | dict : List (String × PyJson) → PyJson

/-- Python truthiness of a JSON value: `None`, `False`, `0`, `""`, `[]` and
`{}` are falsy, everything else is truthy. -/
def pyTruthy : PyJson → Bool
  | PyJson.null => false
  | PyJson.bool b => b
  | PyJson.int n => decide (n ≠ 0)
  | PyJson.str s => !s.isEmpty
  | PyJson.list xs => !xs.isEmpty
  | PyJson.dict kvs => !kvs.isEmpty

/-- Python truthiness of an optional value: `None` is falsy. -/
def pyTruthyOpt : Option PyJson → Bool
  | none => false
  | some v => pyTruthy v

/-- Python `x or fallback` for an optional string `x` (`None` and the empty
string are falsy). -/
def pyStrOr (x : Option String) (fallback : String) : String :=
  match x with
  | none => fallback
  | some s => if s.isEmpty then fallback else s

/-- One `AuditEntry` row.  The model keeps the fields the audit operations
read or write (`user`, `action`, `request_ip`, `_context`); the auto-managed
`date`/`created` timestamps and the `app` text field are set by the framework
and never consulted by the code under audit, so they are omitted. -/
structure AuditEntry where
  id : Nat
  user : Option Nat
  action : String
  request_ip : String
  _context : PyJson

/-- `AuditEntry.ACTION_LOGIN`. -/
def AuditEntry.ACTION_LOGIN : String := "login"
/-- `AuditEntry.ACTION_LOGIN_FAILED`. -/
def AuditEntry.ACTION_LOGIN_FAILED : String := "login_failed"
/-- `AuditEntry.ACTION_LOGOUT`. -/
def AuditEntry.ACTION_LOGOUT : String := "logout"
/-- `AuditEntry.ACTION_AUTHORIZE_APPLICATION`. -/
def AuditEntry.ACTION_AUTHORIZE_APPLICATION : String := "authorize_application"
/-- `AuditEntry.ACTION_SUSPICIOUS_REQUEST`. -/
def AuditEntry.ACTION_SUSPICIOUS_REQUEST : String := "suspicious_request"
/-- `AuditEntry.ACTION_SIGN_UP`. -/
def AuditEntry.ACTION_SIGN_UP : String := "sign_up"
/-- `AuditEntry.ACTION_PASSWORD_RESET`. -/
def AuditEntry.ACTION_PASSWORD_RESET : String := "password_reset"
/-- `AuditEntry.ACTION_INVITE_CREATED`. -/
def AuditEntry.ACTION_INVITE_CREATED : String := "invitation_created"
/-- `AuditEntry.ACTION_INVITE_USED`. -/
def AuditEntry.ACTION_INVITE_USED : String := "invitation_used"

/-- The `ACTIONS` choices tuple of `AuditEntry`.  In Django, `choices` on a
field is declarative metadata used by forms and `full_clean`; `Model.save`
and `Manager.create` do not check it. -/
def AuditEntry.ACTIONS : List (String × String) :=
  [(AuditEntry.ACTION_LOGIN, AuditEntry.ACTION_LOGIN),
   (AuditEntry.ACTION_LOGIN_FAILED, AuditEntry.ACTION_LOGIN_FAILED),
   (AuditEntry.ACTION_LOGOUT, AuditEntry.ACTION_LOGOUT),
   (AuditEntry.ACTION_AUTHORIZE_APPLICATION, AuditEntry.ACTION_AUTHORIZE_APPLICATION),
   (AuditEntry.ACTION_SUSPICIOUS_REQUEST, AuditEntry.ACTION_SUSPICIOUS_REQUEST),
   (AuditEntry.ACTION_SIGN_UP, AuditEntry.ACTION_SIGN_UP),
   (AuditEntry.ACTION_PASSWORD_RESET, AuditEntry.ACTION_PASSWORD_RESET),
   (AuditEntry.ACTION_INVITE_CREATED, AuditEntry.ACTION_INVITE_CREATED),
   (AuditEntry.ACTION_INVITE_USED, AuditEntry.ACTION_INVITE_USED)]

/-- The request data `AuditEntry.create` and `LoginAttempt.attempt` consume:
`request.user` (`none` models `AnonymousUser`) and the result of
`get_client_ip(request)` (`none` when the client IP cannot be determined). -/
structure AuditRequest where
  user : Option Nat
  client_ip : Option String

/-- The table of `AuditEntry` rows together with the next fresh primary key. -/
structure AuditStore where
  recs : List AuditEntry
  nextId : Nat

/-- An empty `AuditEntry` table. -/
def emptyAuditStore : AuditStore := ⟨[], 0⟩

/-- `AuditEntry.save`: raise `ValidationError` unless `self._state.adding`
(the row is being inserted for the first time); otherwise delegate to the
framework insert.  `adding` is Django's `_state.adding` flag: `true` until
the instance has been persisted, `false` for every already-saved row.  On
error nothing is written, so no new row list is produced. -/
def AuditEntry.save (adding : Bool) (e : AuditEntry) (recs : List AuditEntry) :
    Except String (List AuditEntry) :=
  if !adding then
    Except.error "you may not edit an existing auditentry"
  else
    Except.ok (recs ++ [e])

/-- `AuditEntry.create action request kwargs`: resolve the user (falling back
to `kwargs.get('user', None)` — here the explicit `kwargsUser` argument —
when `request.user` is anonymous), resolve the client IP with the
`255.255.255.255` fallback via Python `or`, serialize `kwargs` into
`_context`, and insert the new row (`objects.create` instantiates with
`_state.adding = true` and saves).  No validation of `action` happens on this
path. -/
def AuditEntry.create (action : String) (req : AuditRequest) (kwargsUser : Option Nat)
    (kwargs : List (String × PyJson)) (store : AuditStore) : AuditEntry × AuditStore :=
  let user : Option Nat :=
    match req.user with
    | some u => some u
    | none => kwargsUser
  let entry : AuditEntry :=
    { id := store.nextId
      user := user
      action := action
      request_ip := pyStrOr req.client_ip "255.255.255.255"
      _context := PyJson.dict kwargs }
  match AuditEntry.save true entry store.recs with
  | Except.ok recs => (entry, ⟨recs, store.nextId + 1⟩)
  | Except.error _ => (entry, store)

/-- The state behind the lazy `context` property of one entry: the stored
payload (represented by its decoded value, since `json.dumps`/`json.loads`
round-trip), the `_context_cache` attribute (initially `None`), and a count
of how many times `json.loads` has been applied to the stored payload. -/
structure ContextState where
  raw : PyJson
  cache : Option PyJson
  touches : Nat

/-- The `context` property: `if not self._context_cache:` re-deserialize and
store into the cache, then return the cache.  The guard is Python truthiness,
so both an unset cache (`None`) and a cached falsy value trigger a reload. -/
def contextRead (s : ContextState) : PyJson × ContextState :=
  if pyTruthyOpt s.cache then
    (s.cache.getD PyJson.null, s)
  else
    (s.raw, { s with cache := some s.raw, touches := s.touches + 1 })

/-- One `LoginAttempt` row.  Modelled from the spec: `CreatedUpdatedModel`
(from `passbook.lib.models`, not part of this fragment) contributes the
`createdAt`/`updatedAt` pair — `created` is set once at insert time and
`last_updated` is refreshed to the current time on every save. -/
structure AttemptRecord where
  id : Nat
  target_uid : String
  request_ip : Option String
  attempts : Int
  created : Int
  last_updated : Int
deriving DecidableEq

/-- The table of `LoginAttempt` rows together with the next fresh primary key. -/
structure AttemptStore where
  recs : List AttemptRecord
  nextId : Nat

/-- An empty `LoginAttempt` table. -/
def emptyAttemptStore : AttemptStore := ⟨[], 0⟩

/-- The filter of `LoginAttempt.attempt`: same (already truncated) target,
same client IP, and `last_updated__gt=time_threshold`. -/
def attemptMatches (t : String) (ip : Option String) (threshold : Int)
    (r : AttemptRecord) : Bool :=
  decide (r.target_uid = t ∧ r.request_ip = ip ∧ threshold < r.last_updated)

/-- Insert a record into a list sorted by ascending `created`. -/
def insertByCreated (r : AttemptRecord) : List AttemptRecord → List AttemptRecord
  | [] => [r]
  | x :: xs => if r.created < x.created then r :: x :: xs else x :: insertByCreated r xs

/-- `order_by('created')`: sort ascending by the `created` timestamp. -/
def sortByCreated : List AttemptRecord → List AttemptRecord
  | [] => []
  | x :: xs => insertByCreated x (sortByCreated xs)

/-- The `existing_attempts` queryset: filter by target, IP and window, then
order by `created` ascending. -/
def existingAttempts (t : String) (ip : Option String) (threshold : Int)
    (recs : List AttemptRecord) : List AttemptRecord :=
  sortByCreated (recs.filter (attemptMatches t ip threshold))

/-- `LoginAttempt.attempt target_uid request`: truncate the target to 254
characters, compute the threshold `now - 10` minutes, and query for matching
records.  If any exists, take the first (earliest `created`), add 1 to its
`attempts` and save it (which refreshes `last_updated` to `now`); otherwise
create a new row (`created = last_updated = now`, `attempts` defaults to 1).
The Python function has no `return` statement, so the first component of the
result — the value returned to the caller — is always `none`. -/
def LoginAttempt.attempt (target_uid : String) (client_ip : Option String) (now : Int)
    (store : AttemptStore) : Option AttemptRecord × AttemptStore :=
  let t := target_uid.take 254
  let threshold := now - 10
  match existingAttempts t client_ip threshold store.recs with
  | a :: _ =>
    let upd : AttemptRecord := { a with attempts := a.attempts + 1, last_updated := now }
    (none, ⟨store.recs.map (fun r => if r.id = a.id then upd else r), store.nextId⟩)
  | [] =>
    (none, ⟨store.recs ++ [⟨store.nextId, t, client_ip, 1, now, now⟩], store.nextId + 1⟩)


/-! ## Helper lemmas -/

/-- Membership in `insertByCreated`. -/
theorem mem_insertByCreated {y r : AttemptRecord} {l : List AttemptRecord} :
    y ∈ insertByCreated r l ↔ y = r ∨ y ∈ l := by
  induction l with
  | nil => simp [insertByCreated]
  | cons x xs ih =>
    simp only [insertByCreated]
    split
    · simp [List.mem_cons]
    · simp only [List.mem_cons, ih]
      tauto

/-- `sortByCreated` preserves membership. -/
theorem mem_sortByCreated {y : AttemptRecord} {l : List AttemptRecord} :
    y ∈ sortByCreated l ↔ y ∈ l := by
  induction l with
  | nil => simp [sortByCreated]
  | cons x xs ih => simp [sortByCreated, mem_insertByCreated, ih]

/-- The head of the `created`-sorted list has minimal `created` among the
sorted records. -/
theorem sortByCreated_head_le :
    ∀ (l : List AttemptRecord) (a : AttemptRecord) (rest : List AttemptRecord),
      sortByCreated l = a :: rest → ∀ y ∈ l, a.created ≤ y.created := by
  intro l
  induction l with
  | nil =>
    intro a rest h
    simp [sortByCreated] at h
  | cons x xs ih =>
    intro a rest h y hy
    simp only [sortByCreated] at h
    rcases hx : sortByCreated xs with _ | ⟨b, bs⟩
    · rw [hx] at h
      simp only [insertByCreated] at h
      obtain ⟨h1, h2⟩ := List.cons_eq_cons.mp h
      rw [← h1]
      rcases List.mem_cons.mp hy with h3 | hyx
      · rw [h3]
      · exact absurd (mem_sortByCreated.mpr hyx) (by simp [hx])
    · rw [hx] at h
      simp only [insertByCreated] at h
      by_cases hc : x.created < b.created
      · rw [if_pos hc] at h
        obtain ⟨h1, h2⟩ := List.cons_eq_cons.mp h
        rw [← h1]
        rcases List.mem_cons.mp hy with h3 | hyx
        · rw [h3]
        · exact le_trans (le_of_lt hc) (ih b bs hx y hyx)
      · rw [if_neg hc] at h
        obtain ⟨h1, h2⟩ := List.cons_eq_cons.mp h
        rw [← h1]
        rcases List.mem_cons.mp hy with h3 | hyx
        · rw [h3]
          exact le_of_not_lt hc
        · exact ih b bs hx y hyx

/-- `attempt` on an empty table creates a fresh record with one attempt. -/
theorem attempt_emptyStore (k : String) (ip : Option String) (now : Int) :
    LoginAttempt.attempt k ip now emptyAttemptStore
      = (none, ⟨[⟨0, k.take 254, ip, 1, now, now⟩], 1⟩) := rfl

/-- The queryset over a one-record table when the record matches the filter. -/
theorem existingAttempts_single_hit (t : String) (ip : Option String) (threshold : Int)
    (r : AttemptRecord) (hmatch : attemptMatches t ip threshold r = true) :
    existingAttempts t ip threshold [r] = [r] := by
  unfold existingAttempts
  rw [List.filter_cons, hmatch]
  rfl

/-- The queryset over a one-record table when the record misses the filter. -/
theorem existingAttempts_single_miss (t : String) (ip : Option String) (threshold : Int)
    (r : AttemptRecord) (hmiss : attemptMatches t ip threshold r = false) :
    existingAttempts t ip threshold [r] = [] := by
  unfold existingAttempts
  rw [List.filter_cons, hmiss]
  rfl

/-- `attempt` on a one-record table whose record matches the filter increments
that record and refreshes its `last_updated`. -/
theorem attempt_single_hit (k : String) (ip : Option String) (now : Int)
    (r : AttemptRecord) (n : Nat)
    (hmatch : attemptMatches (k.take 254) ip (now - 10) r = true) :
    LoginAttempt.attempt k ip now ⟨[r], n⟩
      = (none, ⟨[{ r with attempts := r.attempts + 1, last_updated := now }], n⟩) := by
  have hex : existingAttempts (k.take 254) ip (now - 10) [r] = [r] :=
    existingAttempts_single_hit _ _ _ _ hmatch
  unfold LoginAttempt.attempt
  dsimp only
  rw [hex]
  simp

/-- `attempt` on a one-record table whose record misses the filter creates a
second, fresh record and leaves the first unchanged. -/
theorem attempt_single_miss (k : String) (ip : Option String) (now : Int)
    (r : AttemptRecord) (n : Nat)
    (hmiss : attemptMatches (k.take 254) ip (now - 10) r = false) :
    LoginAttempt.attempt k ip now ⟨[r], n⟩
      = (none, ⟨[r, ⟨n, k.take 254, ip, 1, now, now⟩], n + 1⟩) := by
  have hex : existingAttempts (k.take 254) ip (now - 10) [r] = [] :=
    existingAttempts_single_miss _ _ _ _ hmiss
  unfold LoginAttempt.attempt
  dsimp only
  rw [hex]
  rfl

/-! ## Claim theorems: the attempt counter window -/

/-- C1: for a fixed target key and resolved source address, calling
`LoginAttempt.attempt` three times within a 10-minute window, starting from a
store with no matching records, yields exactly one record for that pair with
`attempts = 3`; each call after the first increments the existing record and
refreshes `last_updated` instead of creating a new record. -/
theorem attempt_three_within_window (k : String) (ip : Option String) (t1 t2 t3 : Int)
    (h12 : t1 ≤ t2) (h23 : t2 ≤ t3) (hwin : t3 < t1 + 10) :
    ((LoginAttempt.attempt k ip t1 emptyAttemptStore).2).recs
      = [⟨0, k.take 254, ip, 1, t1, t1⟩] ∧
    ((LoginAttempt.attempt k ip t2 (LoginAttempt.attempt k ip t1 emptyAttemptStore).2).2).recs
      = [⟨0, k.take 254, ip, 2, t1, t2⟩] ∧
    ((LoginAttempt.attempt k ip t3
        (LoginAttempt.attempt k ip t2
          (LoginAttempt.attempt k ip t1 emptyAttemptStore).2).2).2).recs
      = [⟨0, k.take 254, ip, 3, t1, t3⟩] := by
  have e1 := attempt_emptyStore k ip t1
  have m2 : attemptMatches (k.take 254) ip (t2 - 10) ⟨0, k.take 254, ip, 1, t1, t1⟩ = true := by
    simp only [attemptMatches, decide_eq_true_eq]
    exact ⟨trivial, trivial, by omega⟩
  have s2 : LoginAttempt.attempt k ip t2 (LoginAttempt.attempt k ip t1 emptyAttemptStore).2
      = (none, ⟨[⟨0, k.take 254, ip, 2, t1, t2⟩], 1⟩) := by
    rw [e1]
    rw [attempt_single_hit k ip t2 ⟨0, k.take 254, ip, 1, t1, t1⟩ 1 m2]
    dsimp only
    norm_num
  have m3 : attemptMatches (k.take 254) ip (t3 - 10) ⟨0, k.take 254, ip, 2, t1, t2⟩ = true := by
    simp only [attemptMatches, decide_eq_true_eq]
    exact ⟨trivial, trivial, by omega⟩
  have s3 : LoginAttempt.attempt k ip t3
      (LoginAttempt.attempt k ip t2 (LoginAttempt.attempt k ip t1 emptyAttemptStore).2).2
      = (none, ⟨[⟨0, k.take 254, ip, 3, t1, t3⟩], 1⟩) := by
    rw [s2]
    rw [attempt_single_hit k ip t3 ⟨0, k.take 254, ip, 2, t1, t2⟩ 1 m3]
    dsimp only
    norm_num
  rw [s3, s2, e1]
  exact ⟨rfl, rfl, rfl⟩

/-- Witness for C1: target `alice` from `10.0.0.1` at minutes 0, 1 and 2. -/
theorem attempt_three_within_window_witness :
    ((LoginAttempt.attempt "alice" (some "10.0.0.1") 0 emptyAttemptStore).2).recs
      = [⟨0, "alice".take 254, some "10.0.0.1", 1, 0, 0⟩] ∧
    ((LoginAttempt.attempt "alice" (some "10.0.0.1") 1
        (LoginAttempt.attempt "alice" (some "10.0.0.1") 0 emptyAttemptStore).2).2).recs
      = [⟨0, "alice".take 254, some "10.0.0.1", 2, 0, 1⟩] ∧
    ((LoginAttempt.attempt "alice" (some "10.0.0.1") 2
        (LoginAttempt.attempt "alice" (some "10.0.0.1") 1
          (LoginAttempt.attempt "alice" (some "10.0.0.1") 0 emptyAttemptStore).2).2).2).recs
      = [⟨0, "alice".take 254, some "10.0.0.1", 3, 0, 2⟩] :=
  attempt_three_within_window "alice" (some "10.0.0.1") 0 1 2
    (by decide) (by decide) (by decide)

/-- C5: the target key is truncated to its first 254 characters before both
the store filter and the store write, so a creating call and a subsequent
call within the window whose keys agree on the first 254 characters coalesce
into one record. -/
theorem attempt_truncation_coalesces (k1 k2 : String) (ip : Option String) (t1 t2 : Int)
    (hk : k1.take 254 = k2.take 254) (h12 : t1 ≤ t2) (hwin : t2 < t1 + 10) :
    ((LoginAttempt.attempt k1 ip t1 emptyAttemptStore).2).recs
      = [⟨0, k1.take 254, ip, 1, t1, t1⟩] ∧
    ((LoginAttempt.attempt k2 ip t2 (LoginAttempt.attempt k1 ip t1 emptyAttemptStore).2).2).recs
      = [⟨0, k1.take 254, ip, 2, t1, t2⟩] := by
  have e1 := attempt_emptyStore k1 ip t1
  have m2 : attemptMatches (k2.take 254) ip (t2 - 10) ⟨0, k1.take 254, ip, 1, t1, t1⟩ = true := by
    simp only [attemptMatches, decide_eq_true_eq]
    exact ⟨hk, trivial, by omega⟩
  have s2 : LoginAttempt.attempt k2 ip t2 (LoginAttempt.attempt k1 ip t1 emptyAttemptStore).2
      = (none, ⟨[⟨0, k1.take 254, ip, 2, t1, t2⟩], 1⟩) := by
    rw [e1]
    rw [attempt_single_hit k2 ip t2 ⟨0, k1.take 254, ip, 1, t1, t1⟩ 1 m2]
    dsimp only
    norm_num
  rw [s2, e1]
  exact ⟨rfl, rfl⟩

/-- A length-300 key and a length-300 key differing after character 254 have
the same 254-character truncation. -/
theorem take254_replicate_eq :
    (String.mk (List.replicate 300 'a')).take 254
      = (String.mk (List.replicate 254 'a' ++ List.replicate 46 'b')).take 254 := by
  rw [String.take_eq, String.take_eq]
  refine congrArg String.mk ?_
  dsimp only
  rw [List.take_replicate, List.take_append_eq_append_take, List.take_replicate,
    List.length_replicate]
  norm_num

/-- Witness for C5: a key of 300 `a`s, then a key that agrees on the first
254 characters but differs afterwards, one minute later. -/
theorem attempt_truncation_coalesces_witness :
    ((LoginAttempt.attempt (String.mk (List.replicate 300 'a')) (some "10.0.0.1") 0
        emptyAttemptStore).2).recs
      = [⟨0, (String.mk (List.replicate 300 'a')).take 254, some "10.0.0.1", 1, 0, 0⟩] ∧
    ((LoginAttempt.attempt (String.mk (List.replicate 254 'a' ++ List.replicate 46 'b'))
        (some "10.0.0.1") 1
        (LoginAttempt.attempt (String.mk (List.replicate 300 'a')) (some "10.0.0.1") 0
          emptyAttemptStore).2).2).recs
      = [⟨0, (String.mk (List.replicate 300 'a')).take 254, some "10.0.0.1", 2, 0, 1⟩] :=
  attempt_truncation_coalesces (String.mk (List.replicate 300 'a'))
    (String.mk (List.replicate 254 'a' ++ List.replicate 46 'b'))
    (some "10.0.0.1") 0 1 take254_replicate_eq (by decide) (by decide)

/-- C7: a second call after the trailing window has elapsed creates a second
record with `attempts = 1` and `created = last_updated = now`, and leaves the
old record untouched. -/
theorem attempt_after_window_two_records (k : String) (ip : Option String) (t1 t2 : Int)
    (helapsed : t1 ≤ t2 - 10) :
    ((LoginAttempt.attempt k ip t1 emptyAttemptStore).2).recs
      = [⟨0, k.take 254, ip, 1, t1, t1⟩] ∧
    ((LoginAttempt.attempt k ip t2 (LoginAttempt.attempt k ip t1 emptyAttemptStore).2).2).recs
      = [⟨0, k.take 254, ip, 1, t1, t1⟩, ⟨1, k.take 254, ip, 1, t2, t2⟩] := by
  have e1 := attempt_emptyStore k ip t1
  have m2 : attemptMatches (k.take 254) ip (t2 - 10) ⟨0, k.take 254, ip, 1, t1, t1⟩ = false := by
    rw [attemptMatches, decide_eq_false_iff_not]
    intro h
    obtain ⟨-, -, h3⟩ := h
    dsimp only at h3
    omega
  have s2 : LoginAttempt.attempt k ip t2 (LoginAttempt.attempt k ip t1 emptyAttemptStore).2
      = (none, ⟨[⟨0, k.take 254, ip, 1, t1, t1⟩, ⟨1, k.take 254, ip, 1, t2, t2⟩], 2⟩) := by
    rw [e1]
    rw [attempt_single_miss k ip t2 ⟨0, k.take 254, ip, 1, t1, t1⟩ 1 m2]
  rw [s2, e1]
  exact ⟨rfl, rfl⟩

/-- Witness for C7: target `alice` from `10.0.0.1` at minute 0, then at
minute 15, after the 10-minute window has elapsed. -/
theorem attempt_after_window_two_records_witness :
    ((LoginAttempt.attempt "alice" (some "10.0.0.1") 0 emptyAttemptStore).2).recs
      = [⟨0, "alice".take 254, some "10.0.0.1", 1, 0, 0⟩] ∧
    ((LoginAttempt.attempt "alice" (some "10.0.0.1") 15
        (LoginAttempt.attempt "alice" (some "10.0.0.1") 0 emptyAttemptStore).2).2).recs
      = [⟨0, "alice".take 254, some "10.0.0.1", 1, 0, 0⟩,
         ⟨1, "alice".take 254, some "10.0.0.1", 1, 15, 15⟩] :=
  attempt_after_window_two_records "alice" (some "10.0.0.1") 0 15 (by decide)

/-- C10: unlike `AuditEntry.create`, `LoginAttempt.attempt` applies no
sentinel fallback to an unresolvable client IP: the absent address (`none`)
is stored verbatim in the created record and used as-is by the window filter,
so two calls with an unresolved address coalesce on it. -/
theorem attempt_null_ip_passthrough (k : String) (t1 t2 : Int)
    (h12 : t1 ≤ t2) (hwin : t2 < t1 + 10) :
    ((LoginAttempt.attempt k none t1 emptyAttemptStore).2).recs
      = [⟨0, k.take 254, none, 1, t1, t1⟩] ∧
    ((LoginAttempt.attempt k none t2 (LoginAttempt.attempt k none t1 emptyAttemptStore).2).2).recs
      = [⟨0, k.take 254, none, 2, t1, t2⟩] := by
  have e1 := attempt_emptyStore k none t1
  have m2 : attemptMatches (k.take 254) none (t2 - 10) ⟨0, k.take 254, none, 1, t1, t1⟩ = true := by
    simp only [attemptMatches, decide_eq_true_eq]
    exact ⟨trivial, trivial, by omega⟩
  have s2 : LoginAttempt.attempt k none t2 (LoginAttempt.attempt k none t1 emptyAttemptStore).2
      = (none, ⟨[⟨0, k.take 254, none, 2, t1, t2⟩], 1⟩) := by
    rw [e1]
    rw [attempt_single_hit k none t2 ⟨0, k.take 254, none, 1, t1, t1⟩ 1 m2]
    dsimp only
    norm_num
  rw [s2, e1]
  exact ⟨rfl, rfl⟩

/-- Witness for C10: target `alice` with an unresolved client IP at minutes
0 and 1. -/
theorem attempt_null_ip_passthrough_witness :
    ((LoginAttempt.attempt "alice" none 0 emptyAttemptStore).2).recs
      = [⟨0, "alice".take 254, none, 1, 0, 0⟩] ∧
    ((LoginAttempt.attempt "alice" none 1
        (LoginAttempt.attempt "alice" none 0 emptyAttemptStore).2).2).recs
      = [⟨0, "alice".take 254, none, 2, 0, 1⟩] :=
  attempt_null_ip_passthrough "alice" 0 1 (by decide) (by decide)

/-! ## Claim theorems: return value and tie-break of the attempt counter -/

/-- C6 counterexample: `LoginAttempt.attempt` persists the resulting record
in the store but returns `None` (the Python function body has no `return`
statement), so the call does not return the resulting record. -/
theorem attempt_returns_no_record_counterexample :
    (LoginAttempt.attempt "alice" (some "10.0.0.1") 0 emptyAttemptStore).1 = none ∧
    ((LoginAttempt.attempt "alice" (some "10.0.0.1") 0 emptyAttemptStore).2).recs
      = [⟨0, "alice".take 254, some "10.0.0.1", 1, 0, 0⟩] := ⟨rfl, rfl⟩

/-- C6 (amended): every call to `LoginAttempt.attempt` returns `None`; the
resulting record — created or incremented, with the truncated target, the
given client IP and `last_updated = now` — exists only in the store. -/
theorem attempt_returns_none (k : String) (ip : Option String) (now : Int)
    (store : AttemptStore) :
    (LoginAttempt.attempt k ip now store).1 = none ∧
    ∃ r ∈ ((LoginAttempt.attempt k ip now store).2).recs,
      r.target_uid = k.take 254 ∧ r.request_ip = ip ∧ r.last_updated = now := by
  rcases hex : existingAttempts (k.take 254) ip (now - 10) store.recs with _ | ⟨a, rest⟩
  · have hstep : LoginAttempt.attempt k ip now store
        = (none, ⟨store.recs ++ [⟨store.nextId, k.take 254, ip, 1, now, now⟩],
            store.nextId + 1⟩) := by
      unfold LoginAttempt.attempt
      dsimp only
      rw [hex]
    rw [hstep]
    refine ⟨rfl, ?_⟩
    refine ⟨⟨store.nextId, k.take 254, ip, 1, now, now⟩, ?_, ?_, ?_, ?_⟩
    · simp
    · dsimp only
    · dsimp only
    · dsimp only
  · have hmem : a ∈ store.recs.filter (attemptMatches (k.take 254) ip (now - 10)) := by
      have h1 : a ∈ existingAttempts (k.take 254) ip (now - 10) store.recs := by
        rw [hex]
        exact List.mem_cons_self a rest
      exact mem_sortByCreated.mp h1
    have hmatch := (List.mem_filter.mp hmem).2
    simp only [attemptMatches, decide_eq_true_eq] at hmatch
    have hstep : LoginAttempt.attempt k ip now store
        = (none, ⟨store.recs.map (fun r => if r.id = a.id
            then { a with attempts := a.attempts + 1, last_updated := now } else r),
            store.nextId⟩) := by
      unfold LoginAttempt.attempt
      dsimp only
      rw [hex]
    rw [hstep]
    refine ⟨rfl, ?_⟩
    refine ⟨{ a with attempts := a.attempts + 1, last_updated := now }, ?_, ?_, ?_, ?_⟩
    · exact List.mem_map.mpr ⟨a, List.mem_of_mem_filter hmem, by rw [if_pos rfl]⟩
    · exact hmatch.1
    · exact hmatch.2.1
    · dsimp only

/-- C9: when the window query finds one or more matches, `attempt` takes a
first match whose `created` is minimal among all matching records, increments
exactly that record (adding 1 to `attempts` and setting `last_updated = now`),
and every other record of the store — matching or not — is carried over to
the new store with all its fields unchanged. -/
theorem attempt_increments_earliest_match (k : String) (ip : Option String) (now : Int)
    (store : AttemptStore) (a : AttemptRecord) (rest : List AttemptRecord)
    (hsort : existingAttempts (k.take 254) ip (now - 10) store.recs = a :: rest)
    (_hmult : rest ≠ []) :
    (∀ y ∈ store.recs.filter (attemptMatches (k.take 254) ip (now - 10)),
        a.created ≤ y.created) ∧
    ({ a with attempts := a.attempts + 1, last_updated := now }
        ∈ ((LoginAttempt.attempt k ip now store).2).recs) ∧
    (∀ r ∈ store.recs, r.id ≠ a.id → r ∈ ((LoginAttempt.attempt k ip now store).2).recs) := by
  have hmem : a ∈ store.recs.filter (attemptMatches (k.take 254) ip (now - 10)) := by
    have h1 : a ∈ existingAttempts (k.take 254) ip (now - 10) store.recs := by
      rw [hsort]
      exact List.mem_cons_self a rest
    exact mem_sortByCreated.mp h1
  have hstep : LoginAttempt.attempt k ip now store
      = (none, ⟨store.recs.map (fun r => if r.id = a.id
          then { a with attempts := a.attempts + 1, last_updated := now } else r),
          store.nextId⟩) := by
    unfold LoginAttempt.attempt
    dsimp only
    rw [hsort]
  refine ⟨?_, ?_, ?_⟩
  · exact fun y hy => sortByCreated_head_le _ a rest hsort y hy
  · rw [hstep]
    dsimp only
    exact List.mem_map.mpr ⟨a, List.mem_of_mem_filter hmem, by rw [if_pos rfl]⟩
  · intro r hr hne
    rw [hstep]
    dsimp only
    exact List.mem_map.mpr ⟨r, hr, by rw [if_neg hne]⟩

/-- The window query over a concrete two-record store: both records match,
and ordering by `created` puts the record created at minute 0 before the one
created at minute 3. -/
theorem existingAttempts_two_matches :
    existingAttempts ("alice".take 254) (some "10.0.0.1") (7 - 10)
      [⟨1, "alice".take 254, some "10.0.0.1", 1, 3, 6⟩,
       ⟨0, "alice".take 254, some "10.0.0.1", 1, 0, 5⟩]
    = ⟨0, "alice".take 254, some "10.0.0.1", 1, 0, 5⟩
        :: [⟨1, "alice".take 254, some "10.0.0.1", 1, 3, 6⟩] := by
  have hm1 : attemptMatches ("alice".take 254) (some "10.0.0.1") (7 - 10)
      ⟨1, "alice".take 254, some "10.0.0.1", 1, 3, 6⟩ = true := by
    simp only [attemptMatches, decide_eq_true_eq]
    exact ⟨trivial, trivial, by norm_num⟩
  have hm0 : attemptMatches ("alice".take 254) (some "10.0.0.1") (7 - 10)
      ⟨0, "alice".take 254, some "10.0.0.1", 1, 0, 5⟩ = true := by
    simp only [attemptMatches, decide_eq_true_eq]
    exact ⟨trivial, trivial, by norm_num⟩
  unfold existingAttempts
  rw [List.filter_cons, List.filter_cons, List.filter_nil, hm1, hm0]
  simp only [if_true]
  simp only [sortByCreated, insertByCreated]
  norm_num

/-- Witness for C9: in a store holding two matching records (created at
minutes 3 and 0), the call at minute 7 increments the record created at
minute 0 — the earliest — and the updated record is in the resulting
store. -/
theorem attempt_increments_earliest_match_witness :
    { (⟨0, "alice".take 254, some "10.0.0.1", 1, 0, 5⟩ : AttemptRecord) with
        attempts := (⟨0, "alice".take 254, some "10.0.0.1", 1, 0, 5⟩ : AttemptRecord).attempts + 1,
        last_updated := 7 }
      ∈ ((LoginAttempt.attempt "alice" (some "10.0.0.1") 7
          ⟨[⟨1, "alice".take 254, some "10.0.0.1", 1, 3, 6⟩,
            ⟨0, "alice".take 254, some "10.0.0.1", 1, 0, 5⟩], 2⟩).2).recs :=
  (attempt_increments_earliest_match "alice" (some "10.0.0.1") 7
    ⟨[⟨1, "alice".take 254, some "10.0.0.1", 1, 3, 6⟩,
      ⟨0, "alice".take 254, some "10.0.0.1", 1, 0, 5⟩], 2⟩
    ⟨0, "alice".take 254, some "10.0.0.1", 1, 0, 5⟩
    [⟨1, "alice".take 254, some "10.0.0.1", 1, 3, 6⟩]
    existingAttempts_two_matches (List.cons_ne_nil _ _)).2.1

/-! ## Claim theorems: the audit log -/

/-- C2: the initial creation write of an `AuditEntry` (with `_state.adding`
still true) succeeds and appends the row; any later write to the persisted
entry (`adding` false) fails with the `ValidationError` and produces no new
row list, so the stored fields are untouched. -/
theorem auditEntry_immutable (e : AuditEntry) (recs : List AuditEntry) :
    AuditEntry.save true e recs = Except.ok (recs ++ [e]) ∧
    AuditEntry.save false e recs
      = Except.error "you may not edit an existing auditentry" := ⟨rfl, rfl⟩

/-- C3 counterexample: `bogus` is not in the `ACTIONS` enumeration, yet
`AuditEntry.create` with kind `bogus` raises nothing and persists one entry
whose `action` field is `bogus` — the claim that an invalid kind fails and
persists nothing is false on the code. -/
theorem create_invalid_action_persists_counterexample :
    "bogus" ∉ AuditEntry.ACTIONS.map Prod.fst ∧
    ((AuditEntry.create "bogus" ⟨none, some "10.0.0.1"⟩ none [] emptyAuditStore).2).recs.length
      = 1 ∧
    ((AuditEntry.create "bogus" ⟨none, some "10.0.0.1"⟩ none [] emptyAuditStore).1).action
      = "bogus" := by
  refine ⟨?_, rfl, rfl⟩
  decide

/-- C3 (amended): `AuditEntry.create` does not validate `action` — even for
a kind outside the `ACTIONS` enumeration the call succeeds, appends the new
entry to the store, and stores the invalid kind verbatim (the field's
`choices` are enforced only by forms/`full_clean`, which this path never
invokes). -/
theorem create_invalid_action_persists (action : String) (req : AuditRequest)
    (kwargsUser : Option Nat) (kwargs : List (String × PyJson)) (store : AuditStore)
    (_hbad : action ∉ AuditEntry.ACTIONS.map Prod.fst) :
    ((AuditEntry.create action req kwargsUser kwargs store).2).recs
      = store.recs ++ [(AuditEntry.create action req kwargsUser kwargs store).1] ∧
    ((AuditEntry.create action req kwargsUser kwargs store).1).action = action :=
  ⟨rfl, rfl⟩

/-- Witness for the amended C3: creating with kind `bogus`. -/
theorem create_invalid_action_persists_witness :
    ((AuditEntry.create "bogus" ⟨none, some "10.0.0.1"⟩ none [] emptyAuditStore).2).recs
      = emptyAuditStore.recs
          ++ [(AuditEntry.create "bogus" ⟨none, some "10.0.0.1"⟩ none [] emptyAuditStore).1] ∧
    ((AuditEntry.create "bogus" ⟨none, some "10.0.0.1"⟩ none [] emptyAuditStore).1).action
      = "bogus" :=
  create_invalid_action_persists "bogus" ⟨none, some "10.0.0.1"⟩ none [] emptyAuditStore
    (by decide)

/-- C8: when the client IP resolves to no address, the created entry stores
the sentinel `255.255.255.255`; when it resolves to a (non-empty) address,
that address is stored unchanged, and in both cases the entry is appended to
the store. -/
theorem create_ip_fallback (action : String) (u kwargsUser : Option Nat)
    (kwargs : List (String × PyJson)) (store : AuditStore) (ip : Option String)
    (hne : ∀ s, ip = some s → s.isEmpty = false) :
    ((AuditEntry.create action ⟨u, ip⟩ kwargsUser kwargs store).1).request_ip
      = (match ip with | none => "255.255.255.255" | some s => s) ∧
    ((AuditEntry.create action ⟨u, ip⟩ kwargsUser kwargs store).2).recs
      = store.recs ++ [(AuditEntry.create action ⟨u, ip⟩ kwargsUser kwargs store).1] := by
  refine ⟨?_, rfl⟩
  cases ip with
  | none => rfl
  | some s =>
    have hs := hne s rfl
    show pyStrOr (some s) "255.255.255.255" = s
    simp [pyStrOr, hs]

/-- Witness for C8: an unresolved client IP stores the sentinel. -/
theorem create_ip_fallback_witness :
    ((AuditEntry.create "login" ⟨none, none⟩ none [] emptyAuditStore).1).request_ip
      = "255.255.255.255" :=
  (create_ip_fallback "login" none none [] emptyAuditStore none (fun _ hs => nomatch hs)).1

/-- C4 counterexample: with the stored payload `{}` (the serialization of an
empty keyword set, whose deserialized value is falsy), the first read
deserializes once and the second read deserializes again — the second read
is not served from the cache. -/
theorem contextRead_falsy_recache_counterexample :
    ((contextRead ⟨PyJson.dict [], none, 0⟩).2).touches = 1 ∧
    ((contextRead ((contextRead ⟨PyJson.dict [], none, 0⟩).2)).2).touches = 2 := ⟨rfl, rfl⟩

/-- C4 (amended): repeated reads of `context` always return equal values
(the stored payload's decoded value); the second read is a cache hit — it
does not re-deserialize the payload — exactly when the deserialized value is
truthy, because the cache guard `if not self._context_cache` uses Python
truthiness rather than an is-set check. -/
theorem contextRead_idempotent (raw : PyJson) :
    (contextRead ⟨raw, none, 0⟩).1 = raw ∧
    (contextRead ((contextRead ⟨raw, none, 0⟩).2)).1 = raw ∧
    ((contextRead ⟨raw, none, 0⟩).2).touches = 1 ∧
    (((contextRead ((contextRead ⟨raw, none, 0⟩).2)).2).touches = 1 ↔ pyTruthy raw = true) := by
  have h1 : contextRead ⟨raw, none, 0⟩ = (raw, ⟨raw, some raw, 1⟩) := rfl
  rw [h1]
  cases htr : pyTruthy raw with
  | false =>
    have h2 : contextRead ⟨raw, some raw, 1⟩ = (raw, ⟨raw, some raw, 2⟩) := by
      simp [contextRead, pyTruthyOpt, htr]
    rw [h2]
    simp
  | true =>
    have h2 : contextRead ⟨raw, some raw, 1⟩ = (raw, ⟨raw, some raw, 1⟩) := by
      simp [contextRead, pyTruthyOpt, htr]
    rw [h2]
    simp
